import Mathlib

/-!
Shallow embedding of the f1-eventlogger-rs core: the session state-tracking
and stream-correlation engine of `src/session.rs` (struct `SessionState` and
its methods), together with the `Packet::Session` arm of the dispatch loop in
`src/main.rs`.

Modelling conventions:
* Machine integers (`u8`, `u16`, `u32`, `u64`) are `Nat`; the code performs no
  arithmetic on them (only lookups, equality tests and decimal rendering), so
  no overflow can occur; `u64::MIN` is `0` and `u8::MAX` is `255`.
* `lap_distance` is an `f32` in the wire format, used by the code only through
  the cast `lap_distance as u16`; it is modelled at whole-metre resolution as
  a `Nat`, the cast becoming the saturating `min _ 65535`.
* A `csv::Writer<fs::File>` is modelled as the path it was opened on plus the
  records written so far; file-system effects (opening a sink, writing a row,
  flushing) are collected in an explicit `Effect` trace.  Whether
  `csv::Writer::from_path` succeeds is an explicit `Bool` oracle argument;
  buffered `write_record`/`flush` calls on an already-open writer are modelled
  as infallible.
* Fallible Rust code returning `Result`/panicking is modelled with
  `Except String`; methods taking `&mut self` thread the state explicitly and
  return the (possibly partially mutated) state also on the error path.
* External library types (`ParticipantData`, `CarStatusData`, `LapData`,
  `Overtake`, `PacketSessionData`, ...) are modelled with exactly the fields
  and accessors this program reads; `.name()` accessors of library enums
  (team, track, session type, tyre compound) are modelled as carried strings.
-/

namespace F1Log

/-- Rule set classification of a session (library enum; the program only ever
compares against `RuleSet::Race`). -/
inductive RuleSet where
  | Race
  | Practice
  | TimeTrial
deriving DecidableEq, Repr

/-- The packet header fields this program reads: `session_uid : u64` and
`session_time : u32` (milliseconds). -/
structure PacketHeader where
  session_uid : Nat
  session_time : Nat
deriving DecidableEq, Repr

/-- Session announcement packet; `track_name` and `session_type_name` model
the results of `session_data.track.name()` and
`session_data.session_type.name()`. -/
structure PacketSessionData where
  header : PacketHeader
  rule_set : Option RuleSet
  track_name : String
  session_type_name : String
deriving DecidableEq, Repr

/-- Team of a participant; `name` models `Team::name()`. -/
structure Team where
  name : String
deriving DecidableEq, Repr

/-- Roster entry for one vehicle index. -/
structure ParticipantData where
  name : String
  team : Team
  race_number : Nat
deriving DecidableEq, Repr

/-- Visual tyre compound; `name` models `VisualTyreCompound::name()`. -/
structure VisualTyreCompound where
  name : String
deriving DecidableEq, Repr

/-- Status entry for one vehicle index; `tyre_age_laps : Option<u8>` with
`none` the "unknown" sentinel. -/
structure CarStatusData where
  visual_tyre_compound : VisualTyreCompound
  tyre_age_laps : Option Nat
deriving DecidableEq, Repr

/-- Lap-progress entry for one vehicle index. -/
structure LapData where
  car_position : Nat
  current_lap_num : Nat
  lap_distance : Nat
deriving DecidableEq, Repr

/-- Telemetry entry for one vehicle index; the program reads only `speed`. -/
structure CarTelemetryData where
  speed : Nat
deriving DecidableEq, Repr

/-- Overtake signal: two vehicle indices. -/
structure Overtake where
  overtaking_vehicle_idx : Nat
  being_overtaken_vehicle_idx : Nat
deriving DecidableEq, Repr

/-- Event payload of an event packet; kinds other than `Overtake` are ignored
by `handle_overtake` and collapsed into `other`. -/
inductive Event where
  | overtake (ot : Overtake)
  | other
deriving DecidableEq, Repr

/-- Event packet. -/
structure PacketEventData where
  header : PacketHeader
  event : Event
deriving DecidableEq, Repr

/-- One entry of the terminal results payload; `result_status` models the
string produced by `format!("\x7b:?\x7d", result.result_status)`. -/
structure FinalClassificationData where
  position : Nat
  grid_position : Nat
  best_lap_time : Nat
  total_race_time : Nat
  num_laps : Nat
  num_pit_stops : Nat
  num_penalties : Nat
  penalties_time : Nat
  result_status : String
deriving DecidableEq, Repr

/-- Terminal results payload with its declared vehicle count `num_cars : u8`. -/
structure PacketFinalClassificationData where
  header : PacketHeader
  num_cars : Nat
  final_classifications : List FinalClassificationData
deriving DecidableEq, Repr

/-- The denormalized overtake log record (`OvertakeEventLog` in session.rs). -/
structure OvertakeEventLog where
  overtaker_name : String
  overtaker_team : String
  overtaker_speed : Nat
  overtaker_tyre_compound : String
  overtaker_tyre_age : Nat
  overtakee_name : String
  overtakee_team : String
  overtakee_speed : Nat
  overtakee_tyre_compound : String
  overtakee_tyre_age : Nat
  for_pos : Nat
  lap : Nat
  track_position : Nat
  time_secs : Nat
deriving DecidableEq, Repr

/-- `OVERTAKE_CSV_HEADERS` of session.rs. -/
def OVERTAKE_CSV_HEADERS : List String :=
  ["Overtaker", "Overtaker Team", "Overtaker Speed", "Overtaker Tyre Compound",
   "Overtaker Tyre Age", "Overtakee", "Overtakee Team", "Overtakee Speed",
   "Overtakee Tyre Compound", "Overtakee Tyre Age", "For Position", "Lap",
   "Track Position", "Sessiontime [ms]"]

/-- `CLASSIFICATION_CSV_HEADERS` of session.rs. -/
def CLASSIFICATION_CSV_HEADERS : List String :=
  ["Position", "Driver", "Team", "Grid Position", "Fastest Lap Time [ms]",
   "Finish Time [ms]", "Laps", "Pitstops", "Penalties", "Penalty Time [s]",
   "Status"]

/-- A `csv::Writer<fs::File>`: the path it was opened on and the records
written so far (header row included). -/
structure CsvWriter where
  path : String
  rows : List (List String)
deriving DecidableEq, Repr

/-- Observable file-system effects of the sink layer. -/
inductive Effect where
  | openSink (path : String)
  | writeRow (path : String) (row : List String)
  | flushSink (path : String)
deriving DecidableEq, Repr

/-- The path an effect touches. -/
def Effect.path : Effect → String
  | .openSink p => p
  | .writeRow p _ => p
  | .flushSink p => p

/-- Whether an effect is a sink-open. -/
def isOpenEffect : Effect → Bool
  | .openSink _ => true
  | _ => false

/-- Whether an effect is a sink-flush. -/
def isFlushEffect : Effect → Bool
  | .flushSink _ => true
  | _ => false

/-- Whether an effect is a row write. -/
def isWriteRowEffect : Effect → Bool
  | .writeRow _ _ => true
  | _ => false

/-- Number of sink-opens in a trace. -/
def countOpens (t : List Effect) : Nat :=
  (t.filter isOpenEffect).length

/-- `struct SessionState` of session.rs. -/
structure SessionState where
  session_info : Option PacketSessionData
  session_uid : Nat
  cars : List ParticipantData
  car_status : List CarStatusData
  lap_data : List LapData
  car_speeds : List Nat
  csv_writer : Option CsvWriter
deriving DecidableEq, Repr

/-- `SessionState::new` (the `with_capacity` pre-allocations have no
observable content). -/
def SessionState.new : SessionState :=
  { session_info := none
    session_uid := 0
    cars := []
    car_status := []
    lap_data := []
    car_speeds := []
    csv_writer := none }

/-- `SessionState::is_logging_enabled`. -/
def is_logging_enabled (s : SessionState) : Bool :=
  s.csv_writer.isSome

/-- Filename derivation of `create_new_csv_writer`:
`format!("\x7b\x7d \x7b\x7d \x7b\x7d_\x7b\x7d.csv", track.name(), session_type.name(), event_type, session_uid)`. -/
def csvFilename (sd : PacketSessionData) (event_type : String) : String :=
  sd.track_name ++ " " ++ sd.session_type_name ++ " " ++ event_type ++ "_"
    ++ toString sd.header.session_uid ++ ".csv"

/-- `SessionState::create_new_csv_writer`: opens the derived path and writes
the header row.  `createOk` is the oracle for whether
`csv::Writer::from_path` succeeds. -/
def create_new_csv_writer (sd : PacketSessionData) (event_type : String)
    (headers : List String) (createOk : Bool) :
    Except String (CsvWriter × List Effect) :=
  let filename := csvFilename sd event_type
  if createOk then
    Except.ok ({ path := filename, rows := [headers] },
      [Effect.openSink filename, Effect.writeRow filename headers])
  else
    Except.error "io error creating csv writer"

/-- `SessionState::update_session`.  On a changed `session_uid` it flushes any
open writer, records the new uid, then installs a fresh Events sink exactly
when `rule_set == Some(RuleSet::Race)` (otherwise it installs `None`); the
announcement is stored as `session_info` on every non-error path.  On a
writer-creation failure the `?` aborts before the `csv_writer` assignment and
before `session_info` is stored, so the old writer stays installed while the
uid has already advanced.  A writer replaced here is dropped by the
assignment; its buffer is empty at that point (it was flushed just above, and
`write_overtake_event` flushes after every row), so the drop adds no durable
write and no separate effect is recorded for it.  Rust evaluates the
right-hand side first, so the drop of the old handle happens only after the
new file has been created. -/
def update_session (s : SessionState) (sd : PacketSessionData) (createOk : Bool) :
    Except String Unit × SessionState × List Effect :=
  if s.session_uid ≠ sd.header.session_uid then
    let flushEffs : List Effect :=
      match s.csv_writer with
      | some w => [Effect.flushSink w.path]
      | none => []
    if sd.rule_set = some RuleSet.Race then
      match create_new_csv_writer sd "Events" OVERTAKE_CSV_HEADERS createOk with
      | Except.ok (w, effs) =>
          (Except.ok (),
           { s with session_uid := sd.header.session_uid
                    csv_writer := some w
                    session_info := some sd },
           flushEffs ++ effs)
      | Except.error e =>
          (Except.error e,
           { s with session_uid := sd.header.session_uid },
           flushEffs)
    else
      (Except.ok (),
       { s with session_uid := sd.header.session_uid
                csv_writer := none
                session_info := some sd },
       flushEffs)
  else
    (Except.ok (), { s with session_info := some sd }, [])

/-- The `get_car` closure of `create_overtake_event`. -/
def get_car (s : SessionState) (idx : Nat) : Except String ParticipantData :=
  match s.cars[idx]? with
  | some c => Except.ok c
  | none => Except.error "Car data not found"

/-- The `get_status` closure of `create_overtake_event`. -/
def get_status (s : SessionState) (idx : Nat) : Except String CarStatusData :=
  match s.car_status[idx]? with
  | some c => Except.ok c
  | none => Except.error "Car status not found"

/-- The `get_speed` closure of `create_overtake_event`: a speed-cache miss
degrades to the zero sentinel via `unwrap_or(0)`. -/
def get_speed (s : SessionState) (idx : Nat) : Nat :=
  s.car_speeds[idx]?.getD 0

/-- Team column rendering `format!("\x7b\x7d (\x7b\x7d)", team.name(), race_number)`. -/
def teamField (c : ParticipantData) : String :=
  c.team.name ++ " (" ++ toString c.race_number ++ ")"

/-- `SessionState::create_overtake_event`: lookups in source order; the lap
entry is looked up for the overtaken vehicle's index only; tyre age uses
`unwrap_or(u8::MAX)`; `lap_distance as u16` is the saturating cast. -/
def create_overtake_event (s : SessionState) (ot : Overtake) (session_time : Nat) :
    Except String OvertakeEventLog :=
  match get_car s ot.overtaking_vehicle_idx with
  | Except.error e => Except.error e
  | Except.ok overtaker =>
  match get_status s ot.overtaking_vehicle_idx with
  | Except.error e => Except.error e
  | Except.ok overtaker_status =>
  match get_car s ot.being_overtaken_vehicle_idx with
  | Except.error e => Except.error e
  | Except.ok overtakee =>
  match get_status s ot.being_overtaken_vehicle_idx with
  | Except.error e => Except.error e
  | Except.ok overtakee_status =>
  match s.lap_data[ot.being_overtaken_vehicle_idx]? with
  | none => Except.error "Lap data not found"
  | some lap =>
  Except.ok
    { overtaker_name := overtaker.name
      overtaker_team := teamField overtaker
      overtaker_speed := get_speed s ot.overtaking_vehicle_idx
      overtaker_tyre_compound := overtaker_status.visual_tyre_compound.name
      overtaker_tyre_age := overtaker_status.tyre_age_laps.getD 255
      overtakee_name := overtakee.name
      overtakee_team := teamField overtakee
      overtakee_speed := get_speed s ot.being_overtaken_vehicle_idx
      overtakee_tyre_compound := overtakee_status.visual_tyre_compound.name
      overtakee_tyre_age := overtakee_status.tyre_age_laps.getD 255
      for_pos := lap.car_position
      lap := lap.current_lap_num
      track_position := min lap.lap_distance 65535
      time_secs := session_time }

/-- The row serialization of `write_overtake_event`. -/
def overtakeRow (e : OvertakeEventLog) : List String :=
  [e.overtaker_name, e.overtaker_team, toString e.overtaker_speed,
   e.overtaker_tyre_compound, toString e.overtaker_tyre_age,
   e.overtakee_name, e.overtakee_team, toString e.overtakee_speed,
   e.overtakee_tyre_compound, toString e.overtakee_tyre_age,
   toString e.for_pos, toString e.lap, toString e.track_position,
   toString e.time_secs]

/-- `SessionState::write_overtake_event`: if a writer is open, append the row
and flush synchronously. -/
def write_overtake_event (s : SessionState) (e : OvertakeEventLog) :
    SessionState × List Effect :=
  match s.csv_writer with
  | some w =>
      ({ s with csv_writer := some { w with rows := w.rows ++ [overtakeRow e] } },
       [Effect.writeRow w.path (overtakeRow e), Effect.flushSink w.path])
  | none => (s, [])

/-- `SessionState::handle_overtake`: early `Ok` when no writer is open or the
roster cache is empty; otherwise correlate an overtake event and write it,
propagating a correlation miss as an error (with nothing written and nothing
mutated). -/
def handle_overtake (s : SessionState) (ev : PacketEventData) :
    Except String Unit × SessionState × List Effect :=
  if s.csv_writer.isNone || s.cars.isEmpty then
    (Except.ok (), s, [])
  else
    match ev.event with
    | Event.overtake ot =>
        match create_overtake_event s ot ev.header.session_time with
        | Except.ok e =>
            (Except.ok (), (write_overtake_event s e).1, (write_overtake_event s e).2)
        | Except.error msg => (Except.error msg, s, [])
    | Event.other => (Except.ok (), s, [])

/-- One data row of the final classification report. -/
def classificationRow (car : ParticipantData) (r : FinalClassificationData) :
    List String :=
  [toString r.position, car.name, teamField car, toString r.grid_position,
   toString r.best_lap_time, toString r.total_race_time, toString r.num_laps,
   toString r.num_pit_stops, toString r.num_penalties,
   toString r.penalties_time, r.result_status]

/-- The row loop of `write_final_classification`: entry `j` of `results` joins
against roster index `i + j`; the first roster miss aborts with
`"Car data not found"`, after the rows before it were already written. -/
def writeClassificationRows (cars : List ParticipantData) (path : String)
    (results : List FinalClassificationData) (i : Nat) :
    Except String Unit × List Effect :=
  match results with
  | [] => (Except.ok (), [])
  | r :: rest =>
      match cars[i]? with
      | none => (Except.error "Car data not found", [])
      | some car =>
          ((writeClassificationRows cars path rest (i + 1)).1,
           Effect.writeRow path (classificationRow car r)
             :: (writeClassificationRows cars path rest (i + 1)).2)

/-- `SessionState::write_final_classification` (`&self`: the state is returned
untouched on every path): requires a stored session announcement, opens a
fresh one-shot Results sink, writes header then one row per entry of the first
`num_cars` classifications joined against the roster, and flushes explicitly
after the whole join succeeded.  On the roster-miss error return the local
`csv::Writer` is dropped, and `csv::Writer`'s `Drop` flushes its buffer
(ignoring errors), durably writing the header and the rows before the miss —
modelled as a trailing flush effect on the error path too. -/
def write_final_classification (s : SessionState)
    (fc : PacketFinalClassificationData) (createOk : Bool) :
    Except String Unit × SessionState × List Effect :=
  match s.session_info with
  | none => (Except.error "No session info available", s, [])
  | some si =>
      match create_new_csv_writer si "Results" CLASSIFICATION_CSV_HEADERS createOk with
      | Except.error e => (Except.error e, s, [])
      | Except.ok (w, effs) =>
          match (writeClassificationRows s.cars w.path
              (fc.final_classifications.take fc.num_cars) 0).1 with
          | Except.error e =>
              (Except.error e, s,
               effs ++ (writeClassificationRows s.cars w.path
                 (fc.final_classifications.take fc.num_cars) 0).2
                 ++ [Effect.flushSink w.path])
          | Except.ok _ =>
              (Except.ok (), s,
               effs ++ (writeClassificationRows s.cars w.path
                 (fc.final_classifications.take fc.num_cars) 0).2
                 ++ [Effect.flushSink w.path])

/-- `SessionState::update_car_speeds`: `clear()` then `extend` with the
incoming packet's speeds. -/
def update_car_speeds (s : SessionState) (telemetry : List CarTelemetryData) :
    SessionState :=
  let s1 := { s with car_speeds := [] }
  { s1 with car_speeds := s1.car_speeds ++ telemetry.map (fun car => car.speed) }

/-- The Results path of the stored session announcement (empty when no
announcement is stored, in which case no report effect is ever emitted). -/
def resultsPathOf (s : SessionState) : String :=
  match s.session_info with
  | some si => csvFilename si "Results"
  | none => ""

/-- The record produced by `create_overtake_event`, as an `Option`. -/
def overtakeRecord? (s : SessionState) (ot : Overtake) (session_time : Nat) :
    Option OvertakeEventLog :=
  match create_overtake_event s ot session_time with
  | Except.ok r => some r
  | Except.error _ => none

/-- The columns written by the `Packet::Session` arm of main.rs (its header
row lacks the `[ms]` suffix of the session.rs constant). -/
def MAIN_OVERTAKE_HEADERS : List String :=
  ["Overtaker", "Overtaker Team", "Overtaker Speed", "Overtaker Tyre Compound",
   "Overtaker Tyre Age", "Overtakee", "Overtakee Team", "Overtakee Speed",
   "Overtakee Tyre Compound", "Overtakee Tyre Age", "For Position", "Lap",
   "Track Position", "Sessiontime"]

/-- The session-related locals of main.rs's dispatch loop. -/
structure MainState where
  current_session_info : Option PacketSessionData
  last_session_uid : Nat
  csv_writer : Option CsvWriter
deriving DecidableEq, Repr

/-- The `Packet::Session` arm of main.rs: stores the announcement, rotates the
writer on a uid change, and when no writer is open creates one with
`csv::Writer::from_path(&filename).expect("Failed to create CSV writer")` —
the `expect` panic (aborting the whole process, hence packet ingestion) is
modelled as the `Except.error "panic: Failed to create CSV writer"` outcome. -/
def mainSessionArm (st : MainState) (sp : PacketSessionData) (createOk : Bool) :
    Except String (MainState × List Effect) :=
  let st1 := { st with current_session_info := some sp }
  let rotated :=
    match st1.csv_writer with
    | some w =>
        if st1.last_session_uid ≠ sp.header.session_uid then
          ({ st1 with csv_writer := none }, [Effect.flushSink w.path])
        else (st1, ([] : List Effect))
    | none => (st1, ([] : List Effect))
  let st2 := rotated.1
  let effs1 := rotated.2
  match st2.csv_writer with
  | none =>
      let filename := csvFilename sp "Events"
      if createOk then
        Except.ok
          ({ st2 with last_session_uid := sp.header.session_uid
                      csv_writer := some { path := filename, rows := [MAIN_OVERTAKE_HEADERS] } },
           effs1 ++ [Effect.openSink filename, Effect.writeRow filename MAIN_OVERTAKE_HEADERS])
      else
        Except.error "panic: Failed to create CSV writer"
  | some _ => Except.ok (st2, effs1)

section Theorems

/-! Concrete fixtures for the specified scenarios. -/

/-- The roster/status/speed/lap state of the overtake scenario in the spec. -/
def S5 : SessionState :=
  { session_info := none
    session_uid := 7
    cars := [{ name := "A", team := { name := "Red" }, race_number := 1 },
             { name := "B", team := { name := "Blue" }, race_number := 2 }]
    car_status := [{ visual_tyre_compound := { name := "Soft" }, tyre_age_laps := some 3 },
                   { visual_tyre_compound := { name := "Medium" }, tyre_age_laps := some 5 }]
    lap_data := [{ car_position := 1, current_lap_num := 10, lap_distance := 120 },
                 { car_position := 2, current_lap_num := 10, lap_distance := 100 }]
    car_speeds := [210, 205]
    csv_writer := some { path := "T R Events_7.csv", rows := [OVERTAKE_CSV_HEADERS] } }

/-- The expected record of the overtake scenario in the spec. -/
def R5 : OvertakeEventLog :=
  { overtaker_name := "A"
    overtaker_team := "Red (1)"
    overtaker_speed := 210
    overtaker_tyre_compound := "Soft"
    overtaker_tyre_age := 3
    overtakee_name := "B"
    overtakee_team := "Blue (2)"
    overtakee_speed := 205
    overtakee_tyre_compound := "Medium"
    overtakee_tyre_age := 5
    for_pos := 2
    lap := 10
    track_position := 100
    time_secs := 905000 }

/-- C5: on the concrete state roster=[(A,Red,1),(B,Blue,2)],
status=[(Soft,3),(Medium,5)], speed=[210,205],
lap=[(pos 1, lap 10, dist 120),(pos 2, lap 10, dist 100)], the overtake signal
(overtaking 0, overtaken 1, t = 905000 ms) correlates to exactly the record
(A, "Red (1)", 210, Soft, 3, B, "Blue (2)", 205, Medium, 5, for_pos 2,
lap 10, track_pos 100, time 905000): the team fields render as
"name (race number)", the position/lap/distance fields come from the
overtaken vehicle's lap entry, and the time is the signal's millisecond
timestamp. -/
theorem overtake_scenario_record :
    create_overtake_event S5
      { overtaking_vehicle_idx := 0, being_overtaken_vehicle_idx := 1 } 905000
      = Except.ok R5 := by
  rfl

/-- C3: the speed update clears the snapshot and rebuilds it from the incoming
packet alone: afterwards the speed cache has the packet's length and, at every
position, exactly the packet's speed value (so no entry survives from any
earlier packet). -/
theorem update_car_speeds_replaces (s : SessionState)
    (telemetry : List CarTelemetryData) :
    (update_car_speeds s telemetry).car_speeds.length = telemetry.length ∧
    ∀ i : Nat, (update_car_speeds s telemetry).car_speeds[i]?
        = telemetry[i]?.map (fun car => car.speed) := by
  constructor
  · simp [update_car_speeds]
  · intro i
    simp [update_car_speeds]

/-- A successful `get_car` means the roster lookup hit. -/
theorem get_car_isSome {s : SessionState} {idx : Nat} {c : ParticipantData}
    (h : get_car s idx = Except.ok c) : (s.cars[idx]?).isSome := by
  unfold get_car at h
  cases hx : s.cars[idx]? <;> rw [hx] at h <;> simp_all

/-- A successful `get_status` means the status lookup hit. -/
theorem get_status_isSome {s : SessionState} {idx : Nat} {c : CarStatusData}
    (h : get_status s idx = Except.ok c) : (s.car_status[idx]?).isSome := by
  unfold get_status at h
  cases hx : s.car_status[idx]? <;> rw [hx] at h <;> simp_all

/-- Inversion: a successful correlation implies all five mandatory lookups
(roster and status for both indices, lap progress for the overtaken index)
hit. -/
theorem create_ok_lookups (s : SessionState) (ot : Overtake) (t : Nat)
    (r : OvertakeEventLog) (h : create_overtake_event s ot t = Except.ok r) :
    (s.cars[ot.overtaking_vehicle_idx]?).isSome
      ∧ (s.car_status[ot.overtaking_vehicle_idx]?).isSome
      ∧ (s.cars[ot.being_overtaken_vehicle_idx]?).isSome
      ∧ (s.car_status[ot.being_overtaken_vehicle_idx]?).isSome
      ∧ (s.lap_data[ot.being_overtaken_vehicle_idx]?).isSome := by
  unfold create_overtake_event at h
  rcases hca : get_car s ot.overtaking_vehicle_idx with e1 | ca <;> rw [hca] at h
  case error => simp at h
  rcases hsa : get_status s ot.overtaking_vehicle_idx with e2 | sa <;> rw [hsa] at h
  case error => simp at h
  rcases hcb : get_car s ot.being_overtaken_vehicle_idx with e3 | cb <;> rw [hcb] at h
  case error => simp at h
  rcases hsb : get_status s ot.being_overtaken_vehicle_idx with e4 | sb <;> rw [hsb] at h
  case error => simp at h
  rcases hl : s.lap_data[ot.being_overtaken_vehicle_idx]? with _ | l <;> rw [hl] at h
  case none => simp at h
  exact ⟨get_car_isSome hca, get_status_isSome hsa, get_car_isSome hcb,
    get_status_isSome hsb, by simp [hl]⟩

/-- A correlation miss (any mandatory lookup missing) makes
`create_overtake_event` return an error. -/
theorem create_error_of_miss (s : SessionState) (ot : Overtake) (t : Nat)
    (h : s.cars[ot.overtaking_vehicle_idx]? = none
      ∨ s.car_status[ot.overtaking_vehicle_idx]? = none
      ∨ s.cars[ot.being_overtaken_vehicle_idx]? = none
      ∨ s.car_status[ot.being_overtaken_vehicle_idx]? = none
      ∨ s.lap_data[ot.being_overtaken_vehicle_idx]? = none) :
    ∃ e, create_overtake_event s ot t = Except.error e := by
  cases hc : create_overtake_event s ot t with
  | error e => exact ⟨e, rfl⟩
  | ok r =>
      have hs := create_ok_lookups s ot t r hc
      rcases h with h | h | h | h | h <;> simp [h] at hs

/-- Correlation succeeds whenever the five mandatory lookups hit. -/
theorem create_ok_of_lookups (s : SessionState) (ot : Overtake) (t : Nat)
    (ca cb : ParticipantData) (sa sb : CarStatusData) (l : LapData)
    (hca : s.cars[ot.overtaking_vehicle_idx]? = some ca)
    (hsa : s.car_status[ot.overtaking_vehicle_idx]? = some sa)
    (hcb : s.cars[ot.being_overtaken_vehicle_idx]? = some cb)
    (hsb : s.car_status[ot.being_overtaken_vehicle_idx]? = some sb)
    (hl : s.lap_data[ot.being_overtaken_vehicle_idx]? = some l) :
    create_overtake_event s ot t = Except.ok
      { overtaker_name := ca.name
        overtaker_team := teamField ca
        overtaker_speed := get_speed s ot.overtaking_vehicle_idx
        overtaker_tyre_compound := sa.visual_tyre_compound.name
        overtaker_tyre_age := sa.tyre_age_laps.getD 255
        overtakee_name := cb.name
        overtakee_team := teamField cb
        overtakee_speed := get_speed s ot.being_overtaken_vehicle_idx
        overtakee_tyre_compound := sb.visual_tyre_compound.name
        overtakee_tyre_age := sb.tyre_age_laps.getD 255
        for_pos := l.car_position
        lap := l.current_lap_num
        track_position := min l.lap_distance 65535
        time_secs := t } := by
  simp [create_overtake_event, get_car, get_status, hca, hsa, hcb, hsb, hl]

/-- C1 (amended): the overtake correlation never panics and, whenever logging
is disabled, the roster cache is empty, the roster or status lookup misses for
either referenced index, or the lap-progress lookup misses for the overtaken
vehicle's index (the only index the lap lookup is performed for), the event is
dropped: no record is logged, zero sink effects are emitted, and the whole
state — caches and sink included — is left unchanged. -/
theorem overtake_dropped_no_write (s : SessionState) (ev : PacketEventData)
    (ot : Overtake) (hev : ev.event = Event.overtake ot)
    (h : s.csv_writer = none ∨ s.cars = []
      ∨ s.cars[ot.overtaking_vehicle_idx]? = none
      ∨ s.car_status[ot.overtaking_vehicle_idx]? = none
      ∨ s.cars[ot.being_overtaken_vehicle_idx]? = none
      ∨ s.car_status[ot.being_overtaken_vehicle_idx]? = none
      ∨ s.lap_data[ot.being_overtaken_vehicle_idx]? = none) :
    (handle_overtake s ev).2.1 = s ∧ (handle_overtake s ev).2.2 = [] := by
  unfold handle_overtake
  cases hb : (s.csv_writer.isNone || s.cars.isEmpty) with
  | true => simp
  | false =>
      have hmiss : s.cars[ot.overtaking_vehicle_idx]? = none
          ∨ s.car_status[ot.overtaking_vehicle_idx]? = none
          ∨ s.cars[ot.being_overtaken_vehicle_idx]? = none
          ∨ s.car_status[ot.being_overtaken_vehicle_idx]? = none
          ∨ s.lap_data[ot.being_overtaken_vehicle_idx]? = none := by
        rcases h with h | h | h
        · rw [h] at hb; simp at hb
        · rw [h] at hb; simp at hb
        · exact h
      obtain ⟨e, hce⟩ := create_error_of_miss s ot ev.header.session_time hmiss
      simp [hb, hev, hce]

/-- Fixture for the C1 witness: sink open, roster has one entry, but the
status cache is empty, so the status lookup misses. -/
def S1w : SessionState :=
  { session_info := none
    session_uid := 3
    cars := [{ name := "A", team := { name := "Red" }, race_number := 1 }]
    car_status := []
    lap_data := []
    car_speeds := []
    csv_writer := some { path := "T R Events_3.csv", rows := [OVERTAKE_CSV_HEADERS] } }

/-- Fixture for the C1 witness: an overtake signal naming indices 0 and 1. -/
def EV1w : PacketEventData :=
  { header := { session_uid := 3, session_time := 100 }
    event := Event.overtake { overtaking_vehicle_idx := 0, being_overtaken_vehicle_idx := 1 } }

/-- C1 witness: on a concrete state whose status cache misses the overtaking
index, the overtake event is dropped with no sink effect and no state
change. -/
theorem overtake_dropped_no_write_witness :
    S1w.car_status[0]? = none
      ∧ (handle_overtake S1w EV1w).2.1 = S1w
      ∧ (handle_overtake S1w EV1w).2.2 = [] :=
  ⟨rfl,
   overtake_dropped_no_write S1w EV1w
     { overtaking_vehicle_idx := 0, being_overtaken_vehicle_idx := 1 } rfl
     (Or.inr (Or.inr (Or.inr (Or.inl rfl))))⟩

/-- Fixture for the C1 counterexample: full roster and status for indices 0
and 1, sink open, but lap data only for index 0. -/
def S1cx : SessionState :=
  { session_info := none
    session_uid := 3
    cars := [{ name := "A", team := { name := "Red" }, race_number := 1 },
             { name := "B", team := { name := "Blue" }, race_number := 2 }]
    car_status := [{ visual_tyre_compound := { name := "Soft" }, tyre_age_laps := some 3 },
                   { visual_tyre_compound := { name := "Medium" }, tyre_age_laps := some 5 }]
    lap_data := [{ car_position := 1, current_lap_num := 10, lap_distance := 120 }]
    car_speeds := []
    csv_writer := some { path := "T R Events_3.csv", rows := [OVERTAKE_CSV_HEADERS] } }

/-- Fixture for the C1 counterexample: vehicle 1 overtakes vehicle 0, so the
lap lookup (overtaken index 0) hits although the lap entry for referenced
index 1 is absent. -/
def EV1cx : PacketEventData :=
  { header := { session_uid := 3, session_time := 42 }
    event := Event.overtake { overtaking_vehicle_idx := 1, being_overtaken_vehicle_idx := 0 } }

/-- C1 counterexample: the lap-progress lookup misses for referenced vehicle
index 1 (the overtaking one), yet the event is not dropped — the call
succeeds and performs two sink effects (a row write and a flush), contrary to
the claim that a lap-progress miss for either referenced index yields zero
sink writes. -/
theorem overtake_lap_miss_still_writes :
    S1cx.lap_data[1]? = none
      ∧ (handle_overtake S1cx EV1cx).1 = Except.ok ()
      ∧ (handle_overtake S1cx EV1cx).2.2.length = 2 :=
  ⟨rfl, rfl, rfl⟩

/-- C8: when the five mandatory lookups hit, a record is produced even if the
speed cache misses one or both referenced indices, and each missing speed
degrades to the zero sentinel rather than being an error. -/
theorem speed_miss_zero_sentinel (s : SessionState) (ot : Overtake) (t : Nat)
    (ca cb : ParticipantData) (sa sb : CarStatusData) (l : LapData)
    (hca : s.cars[ot.overtaking_vehicle_idx]? = some ca)
    (hsa : s.car_status[ot.overtaking_vehicle_idx]? = some sa)
    (hcb : s.cars[ot.being_overtaken_vehicle_idx]? = some cb)
    (hsb : s.car_status[ot.being_overtaken_vehicle_idx]? = some sb)
    (hl : s.lap_data[ot.being_overtaken_vehicle_idx]? = some l) :
    (overtakeRecord? s ot t).isSome = true
      ∧ (s.car_speeds[ot.overtaking_vehicle_idx]? = none →
          (overtakeRecord? s ot t).map (fun r => r.overtaker_speed) = some 0)
      ∧ (s.car_speeds[ot.being_overtaken_vehicle_idx]? = none →
          (overtakeRecord? s ot t).map (fun r => r.overtakee_speed) = some 0) := by
  have hok := create_ok_of_lookups s ot t ca cb sa sb l hca hsa hcb hsb hl
  refine ⟨by simp [overtakeRecord?, hok], fun hma => ?_, fun hmb => ?_⟩
  · simp [overtakeRecord?, hok, get_speed, hma]
  · simp [overtakeRecord?, hok, get_speed, hmb]

/-- Fixture for the C8 witness: roster/status/lap filled for indices 0 and 1,
speed cache still empty (no telemetry packet seen yet). -/
def S8 : SessionState :=
  { session_info := none
    session_uid := 3
    cars := [{ name := "A", team := { name := "Red" }, race_number := 1 },
             { name := "B", team := { name := "Blue" }, race_number := 2 }]
    car_status := [{ visual_tyre_compound := { name := "Soft" }, tyre_age_laps := some 3 },
                   { visual_tyre_compound := { name := "Medium" }, tyre_age_laps := some 5 }]
    lap_data := [{ car_position := 1, current_lap_num := 4, lap_distance := 50 },
                 { car_position := 2, current_lap_num := 4, lap_distance := 20 }]
    car_speeds := []
    csv_writer := some { path := "T R Events_3.csv", rows := [OVERTAKE_CSV_HEADERS] } }

/-- The overtake signal used by the C8 and C9 witnesses. -/
def OT8 : Overtake :=
  { overtaking_vehicle_idx := 0, being_overtaken_vehicle_idx := 1 }

/-- C8 witness: with an empty speed cache both speed lookups miss, a record is
still produced, and both speed fields are the zero sentinel. -/
theorem speed_miss_zero_sentinel_witness :
    S8.car_speeds[0]? = none
      ∧ (overtakeRecord? S8 OT8 7).isSome = true
      ∧ (overtakeRecord? S8 OT8 7).map (fun r => r.overtaker_speed) = some 0
      ∧ (overtakeRecord? S8 OT8 7).map (fun r => r.overtakee_speed) = some 0 :=
  ⟨rfl,
   (speed_miss_zero_sentinel S8 OT8 7 _ _ _ _ _ rfl rfl rfl rfl rfl).1,
   (speed_miss_zero_sentinel S8 OT8 7 _ _ _ _ _ rfl rfl rfl rfl rfl).2.1 rfl,
   (speed_miss_zero_sentinel S8 OT8 7 _ _ _ _ _ rfl rfl rfl rfl rfl).2.2 rfl⟩

/-- C9: in a produced record, an absent tyre age is recorded as the sentinel
255 (`u8::MAX`), while a present tyre age of zero is recorded as 0, for both
referenced vehicles. -/
theorem tyre_age_unknown_sentinel (s : SessionState) (ot : Overtake) (t : Nat)
    (ca cb : ParticipantData) (sa sb : CarStatusData) (l : LapData)
    (hca : s.cars[ot.overtaking_vehicle_idx]? = some ca)
    (hsa : s.car_status[ot.overtaking_vehicle_idx]? = some sa)
    (hcb : s.cars[ot.being_overtaken_vehicle_idx]? = some cb)
    (hsb : s.car_status[ot.being_overtaken_vehicle_idx]? = some sb)
    (hl : s.lap_data[ot.being_overtaken_vehicle_idx]? = some l) :
    (sa.tyre_age_laps = none →
        (overtakeRecord? s ot t).map (fun r => r.overtaker_tyre_age) = some 255)
      ∧ (sa.tyre_age_laps = some 0 →
          (overtakeRecord? s ot t).map (fun r => r.overtaker_tyre_age) = some 0)
      ∧ (sb.tyre_age_laps = none →
          (overtakeRecord? s ot t).map (fun r => r.overtakee_tyre_age) = some 255)
      ∧ (sb.tyre_age_laps = some 0 →
          (overtakeRecord? s ot t).map (fun r => r.overtakee_tyre_age) = some 0) := by
  have hok := create_ok_of_lookups s ot t ca cb sa sb l hca hsa hcb hsb hl
  exact ⟨fun hx => by simp [overtakeRecord?, hok, hx],
         fun hx => by simp [overtakeRecord?, hok, hx],
         fun hx => by simp [overtakeRecord?, hok, hx],
         fun hx => by simp [overtakeRecord?, hok, hx]⟩

/-- Fixture for the C9 witness: vehicle 0 has an unknown tyre age, vehicle 1 a
genuine age of zero. -/
def S9 : SessionState :=
  { S8 with
    car_status := [{ visual_tyre_compound := { name := "Soft" }, tyre_age_laps := none },
                   { visual_tyre_compound := { name := "Medium" }, tyre_age_laps := some 0 }] }

/-- C9 witness: the unknown age is recorded as 255 and the genuine zero age as
0. -/
theorem tyre_age_unknown_sentinel_witness :
    (overtakeRecord? S9 OT8 7).map (fun r => r.overtaker_tyre_age) = some 255
      ∧ (overtakeRecord? S9 OT8 7).map (fun r => r.overtakee_tyre_age) = some 0 :=
  ⟨(tyre_age_unknown_sentinel S9 OT8 7 _ _ _ _ _ rfl rfl rfl rfl rfl).1 rfl,
   (tyre_age_unknown_sentinel S9 OT8 7 _ _ _ _ _ rfl rfl rfl rfl rfl).2.2.2 rfl⟩

/-- A fully successful classification row loop means every joined roster
lookup hit. -/
theorem classification_rows_ok_isSome (cars : List ParticipantData) (path : String) :
    ∀ (results : List FinalClassificationData) (i j : Nat),
      (writeClassificationRows cars path results i).1 = Except.ok () →
      j < results.length → (cars[i + j]?).isSome := by
  intro results
  induction results with
  | nil => intro i j _ hj; simp at hj
  | cons r rest ih =>
      intro i j hok hj
      cases hc : cars[i]? with
      | none => simp [writeClassificationRows, hc] at hok
      | some car =>
          simp only [writeClassificationRows, hc] at hok
          cases j with
          | zero => simp [hc]
          | succ j' =>
              have hj' : j' < rest.length := by
                simpa [Nat.succ_lt_succ_iff] using hj
              have := ih (i + 1) j' hok hj'
              have hidx : i + (j' + 1) = (i + 1) + j' := by omega
              rw [hidx]
              exact this

/-- The classification row loop stops at the first roster miss: when index
`i + j` misses, at most `j` row writes are emitted. -/
theorem classification_rows_writes_le (cars : List ParticipantData) (path : String) :
    ∀ (results : List FinalClassificationData) (i j : Nat),
      j < results.length → cars[i + j]? = none →
      ((writeClassificationRows cars path results i).2.filter
        isWriteRowEffect).length ≤ j := by
  intro results
  induction results with
  | nil => intro i j hj _; simp at hj
  | cons r rest ih =>
      intro i j hj hmiss
      cases hc : cars[i]? with
      | none => simp [writeClassificationRows, hc]
      | some car =>
          cases j with
          | zero => rw [Nat.add_zero] at hmiss; rw [hmiss] at hc; cases hc
          | succ j' =>
              have hj' : j' < rest.length := by
                simpa [Nat.succ_lt_succ_iff] using hj
              have hmiss' : cars[(i + 1) + j']? = none := by
                have hidx : (i + 1) + j' = i + (j' + 1) := by omega
                rw [hidx]; exact hmiss
              have := ih (i + 1) j' hj' hmiss'
              simp only [writeClassificationRows, hc]
              simp [isWriteRowEffect]
              omega

/-- Every effect of the classification row loop touches the report's own
path. -/
theorem classification_rows_paths (cars : List ParticipantData) (path : String) :
    ∀ (results : List FinalClassificationData) (i : Nat) (eff : Effect),
      eff ∈ (writeClassificationRows cars path results i).2 → eff.path = path := by
  intro results
  induction results with
  | nil => intro i eff hm; simp [writeClassificationRows] at hm
  | cons r rest ih =>
      intro i eff hm
      cases hc : cars[i]? with
      | none => simp [writeClassificationRows, hc] at hm
      | some car =>
          simp only [writeClassificationRows, hc, List.mem_cons] at hm
          rcases hm with hm | hm
          · rw [hm]; rfl
          · exact ih (i + 1) eff hm

/-- C2 (amended): if any vehicle index among the first `num_cars` entries of
the terminal results payload has no roster entry, the report call fails with
an error and the report is never completed: strictly fewer than header plus
the declared row set are durably written (the file is left with the header
and only the rows before the first miss — diagnostic-only, never a complete
report). -/
theorem final_classification_aborted_incomplete (s : SessionState)
    (fc : PacketFinalClassificationData) (b : Bool) (j : Nat)
    (hj1 : j < fc.num_cars) (hj2 : j < fc.final_classifications.length)
    (hmiss : s.cars[j]? = none) :
    (write_final_classification s fc b).1 ≠ Except.ok ()
      ∧ ((write_final_classification s fc b).2.2.filter isWriteRowEffect).length
          < 1 + (fc.final_classifications.take fc.num_cars).length := by
  have hlen : j < (fc.final_classifications.take fc.num_cars).length := by
    simp only [List.length_take]
    omega
  cases hsi : s.session_info with
  | none =>
      constructor
      · simp [write_final_classification, hsi]
      · simp [write_final_classification, hsi]
  | some si =>
      cases b with
      | false =>
          constructor
          · simp [write_final_classification, hsi, create_new_csv_writer]
          · simp [write_final_classification, hsi, create_new_csv_writer]
      | true =>
          cases hr : (writeClassificationRows s.cars (csvFilename si "Results")
              (fc.final_classifications.take fc.num_cars) 0).1 with
          | ok u =>
              exfalso
              cases u
              have hsome := classification_rows_ok_isSome s.cars
                (csvFilename si "Results")
                (fc.final_classifications.take fc.num_cars) 0 j hr hlen
              rw [Nat.zero_add, hmiss] at hsome
              simp at hsome
          | error e =>
              have hle := classification_rows_writes_le s.cars
                (csvFilename si "Results")
                (fc.final_classifications.take fc.num_cars) 0 j hlen
                (by rw [Nat.zero_add]; exact hmiss)
              constructor
              · simp [write_final_classification, hsi, create_new_csv_writer, hr]
              · simp only [write_final_classification, hsi, create_new_csv_writer,
                  if_true, hr, List.filter_append, List.length_append]
                simp [isWriteRowEffect]
                omega

/-- Roster entry used by the C2 witness fixtures. -/
def C0 : ParticipantData := { name := "A", team := { name := "Red" }, race_number := 1 }

/-- A classification entry used by the C2 witness fixtures. -/
def RES0 : FinalClassificationData :=
  { position := 1, grid_position := 2, best_lap_time := 91000,
    total_race_time := 5400000, num_laps := 53, num_pit_stops := 2,
    num_penalties := 0, penalties_time := 0, result_status := "Finished" }

/-- Session announcement stored in the C2 witness state. -/
def SI2 : PacketSessionData :=
  { header := { session_uid := 9, session_time := 0 }
    rule_set := some RuleSet.Race
    track_name := "Monza"
    session_type_name := "Race" }

/-- C2 witness state: roster has index 0 only. -/
def S2w : SessionState :=
  { session_info := some SI2
    session_uid := 9
    cars := [C0]
    car_status := []
    lap_data := []
    car_speeds := []
    csv_writer := none }

/-- C2 witness payload: declared vehicle count 2 with two entries. -/
def FC2 : PacketFinalClassificationData :=
  { header := { session_uid := 9, session_time := 0 }
    num_cars := 2
    final_classifications := [RES0, { RES0 with position := 2 }] }

/-- C2 counterexample: terminal results with declared count 2 while the
roster has index 0 only.  The call does fail (with the report-join error),
but the report IS partially written, durably: the trace ends by flushing a
file that already holds the header row and the data row for entry 0 — the
`csv::Writer` created at session.rs:131 is dropped on the error return and
its `Drop` flushes the buffer.  This refutes the claim's 'the report is not
partially written / aborted atomically'. -/
theorem final_classification_partial_write :
    S2w.cars[1]? = none
      ∧ (write_final_classification S2w FC2 true).1
          = Except.error "Car data not found"
      ∧ (write_final_classification S2w FC2 true).2.2
          = [Effect.openSink (csvFilename SI2 "Results"),
             Effect.writeRow (csvFilename SI2 "Results") CLASSIFICATION_CSV_HEADERS,
             Effect.writeRow (csvFilename SI2 "Results") (classificationRow C0 RES0),
             Effect.flushSink (csvFilename SI2 "Results")] :=
  ⟨rfl, rfl, rfl⟩

/-- C2 witness: declared count 2 with roster containing only index 0 — the
report call errors and durably writes strictly fewer than header plus the two
declared rows, so no complete report is produced. -/
theorem final_classification_aborted_incomplete_witness :
    S2w.cars[1]? = none
      ∧ (write_final_classification S2w FC2 true).1 ≠ Except.ok ()
      ∧ ((write_final_classification S2w FC2 true).2.2.filter
            isWriteRowEffect).length
          < 1 + (FC2.final_classifications.take FC2.num_cars).length :=
  ⟨rfl,
   (final_classification_aborted_incomplete S2w FC2 true 1 (by decide) (by decide) rfl).1,
   (final_classification_aborted_incomplete S2w FC2 true 1 (by decide) (by decide) rfl).2⟩

/-- C10: the results report never mutates the session state — the returned
state (roster, status, speed and lap caches, tracked session identity, stored
announcement, and open event-log sink) is exactly the input state, whether the
call succeeds or fails — and every sink effect it emits touches only the
report's own fresh one-shot Results sink. -/
theorem final_classification_frame (s : SessionState)
    (fc : PacketFinalClassificationData) (b : Bool) :
    (write_final_classification s fc b).2.1 = s
      ∧ ((write_final_classification s fc b).2.2.all
          (fun e => e.path == resultsPathOf s)) = true := by
  cases hsi : s.session_info with
  | none => simp [write_final_classification, hsi]
  | some si =>
      cases b with
      | false => simp [write_final_classification, hsi, create_new_csv_writer]
      | true =>
          cases hr : (writeClassificationRows s.cars (csvFilename si "Results")
              (fc.final_classifications.take fc.num_cars) 0).1 with
          | error e =>
              constructor
              · simp [write_final_classification, hsi, create_new_csv_writer, hr]
              · simp [write_final_classification, hsi, create_new_csv_writer, hr,
                      List.all_append, resultsPathOf, Effect.path]
                intro x hx
                exact classification_rows_paths s.cars (csvFilename si "Results")
                  (fc.final_classifications.take fc.num_cars) 0 x hx
          | ok u =>
              cases u
              constructor
              · simp [write_final_classification, hsi, create_new_csv_writer, hr]
              · simp [write_final_classification, hsi, create_new_csv_writer, hr,
                      List.all_append, resultsPathOf, Effect.path]
                intro x hx
                exact classification_rows_paths s.cars (csvFilename si "Results")
                  (fc.final_classifications.take fc.num_cars) 0 x hx

/-- A session-boundary announcement of a race session (with writer creation
succeeding) flushes any previous sink, then opens the Events sink and writes
its header. -/
theorem update_session_boundary_race (s : SessionState) (p : PacketSessionData)
    (h : s.session_uid ≠ p.header.session_uid)
    (hr : p.rule_set = some RuleSet.Race) :
    update_session s p true =
      (Except.ok (),
       { s with session_uid := p.header.session_uid
                csv_writer := some { path := csvFilename p "Events"
                                     rows := [OVERTAKE_CSV_HEADERS] }
                session_info := some p },
       (match s.csv_writer with
        | some w => [Effect.flushSink w.path]
        | none => []) ++
         [Effect.openSink (csvFilename p "Events"),
          Effect.writeRow (csvFilename p "Events") OVERTAKE_CSV_HEADERS]) := by
  cases hw : s.csv_writer <;>
    simp [update_session, h, hr, create_new_csv_writer, hw]

/-- A session-boundary announcement of a non-race session flushes any previous
sink and installs no new one. -/
theorem update_session_boundary_nonrace (s : SessionState) (p : PacketSessionData)
    (h : s.session_uid ≠ p.header.session_uid)
    (hr : p.rule_set ≠ some RuleSet.Race) :
    update_session s p true =
      (Except.ok (),
       { s with session_uid := p.header.session_uid
                csv_writer := none
                session_info := some p },
       (match s.csv_writer with
        | some w => [Effect.flushSink w.path]
        | none => [])) := by
  cases hw : s.csv_writer <;>
    simp [update_session, h, hr, hw]

/-- C4 (amended): for every state, announcement, and creation outcome, an
event-log sink is opened only if the announced session's kind is race-type
(a non-race announcement's trace contains zero opens); at a
session-identifier change any previously installed sink is flushed before
any new sink opens (the flush is the first effect of the trace), and when
the transition completes the previous sink is uninstalled — afterwards the
installed sink is either the freshly created one or none (its handle being
dropped, hence closed, as the replacement completes, which in Rust happens
just after the new file is created).  Moreover, from the fresh state,
announcements for session A (race), then B (race), then C (non-race), with
distinct identifiers and A's identifier different from the initial sentinel
`u64::MIN = 0`, produce exactly the effect trace open-A, header-A, flush-A,
open-B, header-B, flush-B: exactly two sinks are opened, the first is
flushed before the second opens, the announcement for C opens nothing (it
only flushes B's sink), and after C no sink is installed. -/
theorem sink_lifecycle_rotation (s : SessionState) (w : CsvWriter)
    (p pA pB pC : PacketSessionData) (b : Bool)
    (hA : pA.rule_set = some RuleSet.Race)
    (hB : pB.rule_set = some RuleSet.Race)
    (hC : pC.rule_set ≠ some RuleSet.Race)
    (h0 : pA.header.session_uid ≠ 0)
    (hAB : pA.header.session_uid ≠ pB.header.session_uid)
    (hBC : pB.header.session_uid ≠ pC.header.session_uid) :
    (p.rule_set ≠ some RuleSet.Race →
        countOpens (update_session s p b).2.2 = 0)
    ∧ (s.session_uid ≠ p.header.session_uid → s.csv_writer = some w →
        ((update_session s p b).2.2)[0]? = some (Effect.flushSink w.path))
    ∧ (s.session_uid ≠ p.header.session_uid → s.csv_writer = some w →
        (update_session s p b).1 = Except.ok () →
        ((update_session s p b).2.1.csv_writer = none
          ∨ (update_session s p b).2.1.csv_writer
              = some { path := csvFilename p "Events"
                       rows := [OVERTAKE_CSV_HEADERS] }))
    ∧ ((update_session SessionState.new pA true).2.2
        ++ (update_session (update_session SessionState.new pA true).2.1 pB true).2.2
        ++ (update_session (update_session (update_session SessionState.new pA true).2.1
              pB true).2.1 pC true).2.2
      = [Effect.openSink (csvFilename pA "Events"),
         Effect.writeRow (csvFilename pA "Events") OVERTAKE_CSV_HEADERS,
         Effect.flushSink (csvFilename pA "Events"),
         Effect.openSink (csvFilename pB "Events"),
         Effect.writeRow (csvFilename pB "Events") OVERTAKE_CSV_HEADERS,
         Effect.flushSink (csvFilename pB "Events")])
      ∧ countOpens ((update_session SessionState.new pA true).2.2
          ++ (update_session (update_session SessionState.new pA true).2.1 pB true).2.2
          ++ (update_session (update_session (update_session SessionState.new pA true).2.1
                pB true).2.1 pC true).2.2) = 2
      ∧ (update_session (update_session (update_session SessionState.new pA true).2.1
            pB true).2.1 pC true).2.2
          = [Effect.flushSink (csvFilename pB "Events")]
      ∧ (update_session (update_session (update_session SessionState.new pA true).2.1
            pB true).2.1 pC true).2.1.csv_writer = none := by
  have e1 := update_session_boundary_race SessionState.new pA
    (fun hx => h0 hx.symm) hA
  have h1 : (update_session SessionState.new pA true).2.1
      = { SessionState.new with
          session_uid := pA.header.session_uid
          csv_writer := some { path := csvFilename pA "Events"
                               rows := [OVERTAKE_CSV_HEADERS] }
          session_info := some pA } := by rw [e1]
  have e2 := update_session_boundary_race (update_session SessionState.new pA true).2.1 pB
    (by rw [h1]; exact hAB) hB
  have h2 : (update_session (update_session SessionState.new pA true).2.1 pB true).2.1
      = { (update_session SessionState.new pA true).2.1 with
          session_uid := pB.header.session_uid
          csv_writer := some { path := csvFilename pB "Events"
                               rows := [OVERTAKE_CSV_HEADERS] }
          session_info := some pB } := by rw [e2]
  have e3 := update_session_boundary_nonrace
    (update_session (update_session SessionState.new pA true).2.1 pB true).2.1 pC
    (by rw [h2]; exact hBC) hC
  refine ⟨?_, ?_, ?_, ?_, ?_, ?_, ?_⟩
  · intro hnr
    by_cases h : s.session_uid = p.header.session_uid
    · simp [update_session, h, countOpens]
    · cases hw : s.csv_writer <;>
        simp [update_session, h, hnr, hw, countOpens, isOpenEffect]
  · intro hne hw
    by_cases hr : p.rule_set = some RuleSet.Race <;> cases b <;>
      simp [update_session, hne, hw, hr, create_new_csv_writer]
  · intro hne hw hok
    by_cases hr : p.rule_set = some RuleSet.Race
    · cases b with
      | true =>
          right
          simp [update_session, hne, hw, hr, create_new_csv_writer]
      | false =>
          exfalso
          simp [update_session, hne, hw, hr, create_new_csv_writer] at hok
    · left
      simp [update_session, hne, hw, hr]
  · rw [e3, e2, e1]
    simp [SessionState.new]
  · rw [e3, e2, e1]
    simp [SessionState.new, countOpens, isOpenEffect]
  · rw [e3, e2, e1]
  · rw [e3]

/-- Race announcement for session A whose identifier collides with the
initial sentinel `u64::MIN = 0`. -/
def pAcx : PacketSessionData :=
  { header := { session_uid := 0, session_time := 0 }
    rule_set := some RuleSet.Race
    track_name := "Monza"
    session_type_name := "Race" }

/-- Race announcement for session B (identifier 1). -/
def pBcx : PacketSessionData :=
  { header := { session_uid := 1, session_time := 0 }
    rule_set := some RuleSet.Race
    track_name := "Spa"
    session_type_name := "Race" }

/-- Non-race announcement for session C (identifier 2). -/
def pCcx : PacketSessionData :=
  { header := { session_uid := 2, session_time := 0 }
    rule_set := some RuleSet.Practice
    track_name := "Spa"
    session_type_name := "Practice" }

/-- C4 counterexample: when race session A's identifier equals the initial
sentinel `u64::MIN = 0`, its announcement is not treated as a boundary, so
its trace is empty and only one sink is opened across A (race), B (race),
C (non-race) — not the two the claim requires of every such sequence. -/
theorem sink_rotation_uid_zero_counterexample :
    (update_session SessionState.new pAcx true).2.2 = []
      ∧ countOpens ((update_session SessionState.new pAcx true).2.2
          ++ (update_session (update_session SessionState.new pAcx true).2.1 pBcx true).2.2
          ++ (update_session (update_session (update_session SessionState.new pAcx true).2.1
                pBcx true).2.1 pCcx true).2.2) = 1 :=
  ⟨rfl, rfl⟩

/-- Race announcement for session A used by the C4 witness (identifier 5). -/
def pAw : PacketSessionData :=
  { header := { session_uid := 5, session_time := 0 }
    rule_set := some RuleSet.Race
    track_name := "Monza"
    session_type_name := "Race" }

/-- Race announcement for session B used by the C4 witness (identifier 6). -/
def pBw : PacketSessionData :=
  { header := { session_uid := 6, session_time := 0 }
    rule_set := some RuleSet.Race
    track_name := "Spa"
    session_type_name := "Race" }

/-- Non-race announcement for session C used by the C4 witness
(identifier 7). -/
def pCw : PacketSessionData :=
  { header := { session_uid := 7, session_time := 0 }
    rule_set := some RuleSet.Practice
    track_name := "Spa"
    session_type_name := "Practice" }

/-- The open Events writer of session 1 in the C4 witness state. -/
def wW : CsvWriter :=
  { path := "Monza Race Events_1.csv", rows := [OVERTAKE_CSV_HEADERS] }

/-- C4 witness state: session 1 is tracked with its Events sink installed. -/
def sW : SessionState :=
  { SessionState.new with session_uid := 1, csv_writer := some wW }

/-- C4 witness: the amended lifecycle property at concrete inputs — the
non-race announcement (identifier 7) opens nothing on a state holding
session 1's sink, its trace starts by flushing that sink, the completed
transition uninstalls it, and the rotation scenario holds at the concrete
announcements with identifiers 5 (race), 6 (race), 7 (practice). -/
theorem sink_lifecycle_rotation_witness :
    countOpens (update_session sW pCw true).2.2 = 0
      ∧ ((update_session sW pCw true).2.2)[0]? = some (Effect.flushSink wW.path)
      ∧ ((update_session sW pCw true).2.1.csv_writer = none
          ∨ (update_session sW pCw true).2.1.csv_writer
              = some { path := csvFilename pCw "Events"
                       rows := [OVERTAKE_CSV_HEADERS] })
      ∧ ((update_session SessionState.new pAw true).2.2
        ++ (update_session (update_session SessionState.new pAw true).2.1 pBw true).2.2
        ++ (update_session (update_session (update_session SessionState.new pAw true).2.1
              pBw true).2.1 pCw true).2.2
      = [Effect.openSink (csvFilename pAw "Events"),
         Effect.writeRow (csvFilename pAw "Events") OVERTAKE_CSV_HEADERS,
         Effect.flushSink (csvFilename pAw "Events"),
         Effect.openSink (csvFilename pBw "Events"),
         Effect.writeRow (csvFilename pBw "Events") OVERTAKE_CSV_HEADERS,
         Effect.flushSink (csvFilename pBw "Events")])
      ∧ countOpens ((update_session SessionState.new pAw true).2.2
          ++ (update_session (update_session SessionState.new pAw true).2.1 pBw true).2.2
          ++ (update_session (update_session (update_session SessionState.new pAw true).2.1
                pBw true).2.1 pCw true).2.2) = 2
      ∧ (update_session (update_session (update_session SessionState.new pAw true).2.1
            pBw true).2.1 pCw true).2.2
          = [Effect.flushSink (csvFilename pBw "Events")]
      ∧ (update_session (update_session (update_session SessionState.new pAw true).2.1
            pBw true).2.1 pCw true).2.1.csv_writer = none := by
  have h := sink_lifecycle_rotation sW wW pCw pAw pBw pCw true rfl rfl
    (by decide) (by decide) (by decide) (by decide)
  exact ⟨h.1 (by decide), h.2.1 (by decide) rfl, h.2.2.1 (by decide) rfl rfl,
    h.2.2.2⟩

/-- The state after `update_session` always tracks the announcement's
identifier, on success and on writer-creation failure alike. -/
theorem update_session_uid (s : SessionState) (p : PacketSessionData) (b : Bool) :
    (update_session s p b).2.1.session_uid = p.header.session_uid := by
  by_cases h : s.session_uid = p.header.session_uid
  · simp [update_session, h]
  · cases hw : s.csv_writer <;> cases b <;>
      by_cases hr : p.rule_set = some RuleSet.Race <;>
      simp [update_session, h, hr, hw, create_new_csv_writer]

/-- A single `update_session` call opens at most one sink. -/
theorem update_session_opens_le_one (s : SessionState) (p : PacketSessionData)
    (b : Bool) : countOpens (update_session s p b).2.2 ≤ 1 := by
  by_cases h : s.session_uid = p.header.session_uid
  · simp [update_session, h, countOpens]
  · cases hw : s.csv_writer <;> cases b <;>
      by_cases hr : p.rule_set = some RuleSet.Race <;>
      simp [update_session, h, hr, hw, create_new_csv_writer, countOpens,
            isOpenEffect]

/-- An announcement carrying the currently tracked identifier causes no sink
transition and no effect; only the announcement itself is stored. -/
theorem update_session_same_uid (s : SessionState) (p : PacketSessionData)
    (b : Bool) (h : s.session_uid = p.header.session_uid) :
    update_session s p b
      = (Except.ok (), { s with session_info := some p }, []) := by
  simp [update_session, h]

/-- C7: the session lifecycle is idempotent in the session identifier: across
two consecutive announcements carrying the same identifier at most one sink
is opened in total, and the second call emits no effect at all (so no second
header row) and leaves the installed sink exactly as the first call left
it. -/
theorem update_session_idempotent (s : SessionState) (p q : PacketSessionData)
    (b1 b2 : Bool) (h : q.header.session_uid = p.header.session_uid) :
    countOpens ((update_session s p b1).2.2
        ++ (update_session (update_session s p b1).2.1 q b2).2.2) ≤ 1
      ∧ (update_session (update_session s p b1).2.1 q b2).2.2 = []
      ∧ (update_session (update_session s p b1).2.1 q b2).2.1.csv_writer
          = (update_session s p b1).2.1.csv_writer := by
  have hu : (update_session s p b1).2.1.session_uid = q.header.session_uid := by
    rw [update_session_uid, h]
  have h2 := update_session_same_uid (update_session s p b1).2.1 q b2 hu
  refine ⟨?_, ?_, ?_⟩
  · rw [h2]
    simpa [countOpens] using update_session_opens_le_one s p b1
  · rw [h2]
  · rw [h2]

/-- First announcement of session 11 (a race), for the C7 witness. -/
def p7 : PacketSessionData :=
  { header := { session_uid := 11, session_time := 0 }
    rule_set := some RuleSet.Race
    track_name := "Monza"
    session_type_name := "Race" }

/-- Repeated announcement of session 11, for the C7 witness. -/
def q7 : PacketSessionData :=
  { header := { session_uid := 11, session_time := 30000 }
    rule_set := some RuleSet.Race
    track_name := "Monza"
    session_type_name := "Race" }

/-- C7 witness: two concrete announcements with the same identifier 11 open
at most one sink; the repeat emits nothing and keeps the sink. -/
theorem update_session_idempotent_witness :
    countOpens ((update_session SessionState.new p7 true).2.2
        ++ (update_session (update_session SessionState.new p7 true).2.1 q7 true).2.2) ≤ 1
      ∧ (update_session (update_session SessionState.new p7 true).2.1 q7 true).2.2 = []
      ∧ (update_session (update_session SessionState.new p7 true).2.1 q7 true).2.1.csv_writer
          = (update_session SessionState.new p7 true).2.1.csv_writer :=
  update_session_idempotent SessionState.new p7 q7 true true rfl

/-- The previous session's open Events writer, for the C6 fixture. -/
def oldW : CsvWriter :=
  { path := "Monza Race Events_1.csv", rows := [OVERTAKE_CSV_HEADERS] }

/-- Announcement of the previous session (identifier 1), stored in the C6
fixture state. -/
def p6old : PacketSessionData :=
  { header := { session_uid := 1, session_time := 0 }
    rule_set := some RuleSet.Race
    track_name := "Monza"
    session_type_name := "Race" }

/-- C6 fixture state: session 1 is active with its Events sink open. -/
def st6 : SessionState :=
  { session_info := some p6old
    session_uid := 1
    cars := []
    car_status := []
    lap_data := []
    car_speeds := []
    csv_writer := some oldW }

/-- Boundary announcement of new race session 2, for the C6 fixture. -/
def p6 : PacketSessionData :=
  { header := { session_uid := 2, session_time := 0 }
    rule_set := some RuleSet.Race
    track_name := "Spa"
    session_type_name := "Race" }

/-- The main.rs loop state before any session was seen, for the C6 fixture. -/
def m6 : MainState :=
  { current_session_info := none, last_session_uid := 0, csv_writer := none }

/-- C6: what the code actually does when sink creation fails at a boundary
crossing.  The dispatch loop of main.rs panics (`.expect`), terminating
packet ingestion; and session.rs's `update_session` returns the error with
the previous session's sink still installed — `is_logging_enabled` stays
true and subsequent events would be logged to the old session's file — so
logging is not disabled for the new session as the claim requires. -/
theorem sink_creation_failure_behaviour :
    mainSessionArm m6 p6 false
        = Except.error "panic: Failed to create CSV writer"
      ∧ (update_session st6 p6 false).1
          = Except.error "io error creating csv writer"
      ∧ (update_session st6 p6 false).2.1.csv_writer = some oldW
      ∧ is_logging_enabled (update_session st6 p6 false).2.1 = true
      ∧ (update_session st6 p6 false).2.1.session_uid = 2 :=
  ⟨rfl, rfl, rfl, rfl, rfl⟩

end Theorems

end F1Log
